import Mathlib

/-!
Verification development for the damaged-books service.

Shallow embedding of the Python sources under `src/` into Lean:
  - `services/inventory_service.py` : condition extraction
  - `services/cron_service.py` : reconciliation sweep and its condition
    normalization
  - `services/product_service.py` : handle parsing, duplicate check,
    bulk creation and pricing
  - `services/used_book_manager.py` : publish/redirect reconciler and
    the inventory-change processor
  - `services/seo_service.py` : canonical-handle resolution
  - `backend/app/routes.py`, `api/webhooks.py` : webhook boundary
  - `backend/app/admin_routes.py` : bulk-create endpoint

Python values of type `str | None` are modelled as `Option String`,
`int | None` as `Option Int`; an operation that can raise is modelled
as `Except PyErr _`.  Each definition mirrors one Python function and
is named after it.
-/

/-- Exceptions that the modelled code can raise. -/
inductive PyErr where
  | typeError
  | nameError
  | runtimeError
  | httpError
  deriving DecidableEq, Repr

/-- `charsStart pat s` : `pat` is a leading segment of `s`
(character-list primitive used to model Python string operations). -/
def charsStart : List Char → List Char → Bool
  | [], _ => true
  | _ :: _, [] => false
  | p :: ps, c :: cs => p == c && charsStart ps cs

/-- `charsContain pat s` : `pat` occurs inside `s` as a contiguous run. -/
def charsContain (pat : List Char) : List Char → Bool
  | [] => pat.isEmpty
  | c :: tl => charsStart pat (c :: tl) || charsContain pat tl

/-- Substring test: Python's `sub in s`. -/
def containsSub (s sub : String) : Bool :=
  charsContain sub.toList s.toList

/-- Python's `s.endswith(suf)`. -/
def strEnds (s suf : String) : Bool :=
  charsStart suf.toList.reverse s.toList.reverse

/-- Python's `s.lower()` (ASCII case folding, as for the slugs and
option names this service handles). -/
def lowerStr (s : String) : String :=
  ⟨s.toList.map Char.toLower⟩

/-- Python's `s.strip()`. -/
def trimStr (s : String) : String :=
  ⟨((s.toList.dropWhile Char.isWhitespace).reverse.dropWhile Char.isWhitespace).reverse⟩

/-- Drop the last `n` characters of `s` (Python's `s[:-n]`). -/
def dropRightStr (s : String) (n : Nat) : String :=
  ⟨s.toList.take (s.toList.length - n)⟩

/-- Python's single-character `s.replace(a, b)`. -/
def replaceChar (s : String) (a b : Char) : String :=
  ⟨s.toList.map (fun c => if c == a then b else c)⟩

/-- Python's `s.removesuffix(suf)` (used in `cron_service.py`). -/
def removeSuffix (s suf : String) : String :=
  if strEnds s suf then dropRightStr s suf.length else s

/-- Python's `x or default` for an optional string: `None` and the
empty string are falsy and give the default. -/
def pyOrStr (o : Option String) (d : String) : String :=
  match o with
  | none => d
  | some "" => d
  | some s => s

/-- A Shopify variant `selectedOptions` entry `{name, value}`. -/
structure SelectedOption where
  name : Option String := none
  value : Option String := none
  deriving DecidableEq, Repr

/-- A variant object as consumed by
`inventory_service._extract_condition_from_variant`. -/
structure PyVariant where
  selectedOptions : List SelectedOption := []
  option1 : Option String := none
  option2 : Option String := none
  option3 : Option String := none
  title : Option String := none
  deriving DecidableEq, Repr

/-- First pass of `_extract_condition_from_variant`
(`services/inventory_service.py` lines 19-26): scan `selectedOptions`
for a name equal to "condition" (case-insensitive) or containing
"damage", else a value containing "damage". -/
def scanSelectedOptions : List SelectedOption → Option String
  | [] => none
  | opt :: rest =>
    let name := lowerStr (trimStr (pyOrStr opt.name ""))
    let val := trimStr (pyOrStr opt.value "")
    if name == "condition" || containsSub name "damage" then some val
    else if containsSub (lowerStr val) "damage" then some val
    else scanSelectedOptions rest

/-- Second pass of `_extract_condition_from_variant` (lines 29-32):
fall back to `option1`/`option2`/`option3` values containing
"damage". -/
def scanLegacyOptions : List (Option String) → Option String
  | [] => none
  | none :: rest => scanLegacyOptions rest
  | some s :: rest =>
    if containsSub (lowerStr s) "damage" then some s else scanLegacyOptions rest

/-- `inventory_service._extract_condition_from_variant`: returns the
raw condition/damage option value of a variant, or `None`. -/
def extractConditionFromVariant (v : PyVariant) : Option String :=
  match scanSelectedOptions v.selectedOptions with
  | some val => some val
  | none =>
    match scanLegacyOptions [v.option1, v.option2, v.option3] with
    | some s => some s
    | none =>
      match v.title with
      | some t => if containsSub (lowerStr t) "damage" then some t else none
      | none => none

/-- Condition resolution in the reconciliation sweep
(`services/cron_service.py` lines 55-62): the first selected option
whose name is exactly "Condition" supplies `condition_raw`, and
`condition_key` is `condition_raw.lower().replace(" ", "_")` when
`condition_raw` is a non-empty string. -/
def cronResolveCondition : List SelectedOption → Option String × Option String
  | [] => (none, none)
  | opt :: rest =>
    if opt.name == some "Condition" then
      match opt.value with
      | none => (none, none)
      | some "" => (some "", none)
      | some v => (some v, some (replaceChar (lowerStr v) ' ' '_'))
    else cronResolveCondition rest

-- Sanity checks on concrete values.
example : cronResolveCondition [⟨some "Condition", some "Light Damage"⟩] =
    (some "Light Damage", some "light_damage") := by decide
example : extractConditionFromVariant
    { selectedOptions := [⟨some "Size", some "L"⟩], title := some "Default" } = none := by
  decide

/-!
## Handle parsing (`services/product_service.py` lines 474-521)

`parse_damaged_handle` tries two regular expressions against the
lower-cased handle and falls back to `(handle, None)`:
  1. `^(.+)-(?:hurt|used|damaged|damage)-(light|moderate|mod|heavy)$`
  2. `^(.+)-(light|moderate|mod|heavy)-damage$`
Both patterns are alternations of fixed words, so a match is exactly a
decomposition `base ++ suffix` with non-empty `base`; the greedy `(.+)`
picks the decomposition with the longest base.
-/

/-- The middle alternation of pattern 1, in regex order. -/
def legacyMids : List String := ["hurt", "used", "damaged", "damage"]

/-- The condition alternation of both patterns, in regex order. -/
def condToks : List String := ["light", "moderate", "mod", "heavy"]

/-- All `(base, cond)` decompositions of `h` along a given list of
complete fixed suffixes paired with their condition group. -/
def suffixMatches (h : String) : List (String × String) → List (String × String)
  | [] => []
  | (suf, cond) :: rest =>
    if strEnds h suf && decide (suf.toList.length < h.toList.length) then
      (dropRightStr h suf.length, cond) :: suffixMatches h rest
    else suffixMatches h rest

/-- Pick the decomposition with the longest base (the greedy `(.+)`). -/
def pickGreedy : List (String × String) → Option (String × String)
  | [] => none
  | p :: rest =>
    match pickGreedy rest with
    | none => some p
    | some q => if q.1.toList.length > p.1.toList.length then some q else some p

/-- Match `^(.+)-(?:hurt|used|damaged|damage)-(light|moderate|mod|heavy)$`. -/
def matchLegacyDamaged (h : String) : Option (String × String) :=
  pickGreedy (suffixMatches h
    ((legacyMids.flatMap (fun m => condToks.map (fun c => ("-" ++ m ++ "-" ++ c, c))))))

/-- Match `^(.+)-(light|moderate|mod|heavy)-damage$`. -/
def matchCondDamage (h : String) : Option (String × String) :=
  pickGreedy (suffixMatches h (condToks.map (fun c => ("-" ++ c ++ "-damage", c))))

/-- `product_service.parse_damaged_handle` (deprecated in the source,
but still the function the webhook pipeline calls): lower-case the
handle, try the two legacy patterns, else return the original handle
with no condition. -/
def parse_damaged_handle (handle : String) : String × Option String :=
  let h := lowerStr handle
  match matchLegacyDamaged h with
  | some (base, cond) => (base, some cond)
  | none =>
    match matchCondDamage h with
    | some (base, cond) => (base, some cond)
    | none => (handle, none)

/-- `product_service.get_new_book_handle_from_used`: the base part of
`parse_damaged_handle`. -/
def get_new_book_handle_from_used (usedHandle : String) : String :=
  (parse_damaged_handle usedHandle).1

/-- `product_service.is_used_book_handle` /
`product_service.is_damaged_handle`. -/
def is_damaged_handle (handle : String) : Bool :=
  (parse_damaged_handle handle).2.isSome

-- The legacy patterns do work on legacy handles.
example : parse_damaged_handle "some-book-used-light" = ("some-book", some "light") := by
  decide
example : parse_damaged_handle "some-book-mod-damage" = ("some-book", some "mod") := by
  decide
-- But a plain "-damaged" suffix matches neither pattern.
example : parse_damaged_handle "pride-and-prejudice-damaged" =
    ("pride-and-prejudice-damaged", none) := by decide

/-!
## Canonical-handle resolution (`services/seo_service.py` lines 94-140)

`resolve_canonical_handle` is pure up to two collaborator lookups,
which are passed in as values:
  - `redirectTarget`: `find_redirect_by_path(stripped)` distilled to
    the redirect's `target` field (`none` when no redirect was found or
    the lookup raised),
  - `productFound`: whether the Shopify product lookup at the stripped
    handle returned a product.
-/

/-- `seo_service.resolve_canonical_handle`. -/
def resolve_canonical_handle (damagedHandle : String)
    (redirectTarget : Option String) (productFound : Bool) : String :=
  let stripped :=
    if strEnds damagedHandle "-damaged" then dropRightStr damagedHandle 8
    else damagedHandle
  match redirectTarget with
  | some t => if t ≠ "" then t else if productFound then stripped else stripped
  | none => if productFound then stripped else stripped

example : resolve_canonical_handle "pride-and-prejudice-damaged" none false =
    "pride-and-prejudice" := by decide

/-!
## Bulk-create pricing (`services/product_service.py` lines 34-47, 524-701)

`create_damaged_pair` builds the damaged-product payload.  Its inner
helper `compute_price_for_condition` (lines 615-635) selects a discount
percentage and then evaluates the f-string
`f"{canonical_price * (1 - pct):.2f}"` inside `try`.  The enclosing
function only ever defines `canonical_price_raw` (line 573); the name
`canonical_price` is bound nowhere in the module, so the expression
raises `NameError` and the `except` branch returns
`canonical_price_raw` unchanged.
-/

/-- A `VariantSeed` (`backend/app/schemas.py`): per-condition request
data for bulk creation.  `priceOverride` is a fraction off the
canonical price. -/
structure VariantSeed where
  condition : String
  quantity : Option Int := none
  priceOverride : Option ℚ := none
  deriving DecidableEq, Repr

/-- `CONDITION_META` (lines 34-47): per-condition title and default
discount. -/
def CONDITION_META : List (String × String × ℚ) :=
  [("light", "Light Damage", 15/100),
   ("moderate", "Moderate Damage", 30/100),
   ("heavy", "Heavy Damage", 60/100)]

/-- The `seed_by_condition` dict keyed by the normalized condition:
Python dict assignment keeps the last seed whose normalized condition
equals the (non-empty) key. -/
def seedFor (seeds : List VariantSeed) (key : String) : Option VariantSeed :=
  (seeds.filter (fun s => lowerStr (trimStr s.condition) == key)).getLast?

/-- The value bound to the name `canonical_price` inside
`create_damaged_pair`: the name is never assigned anywhere in
`product_service.py` (only `canonical_price_raw` is, line 573), so the
lookup always fails with `NameError`. -/
def canonicalPriceBinding : Option ℚ := none

/-- Python's `f"{x:.2f}"` on a rational (round to cents; unreachable in
the source because `canonicalPriceBinding` is `none`). -/
def formatTwoDecimals (q : ℚ) : String :=
  let cents : ℤ := round (q * 100)
  let sign := if cents < 0 then "-" else ""
  let n := cents.natAbs
  sign ++ toString (n / 100) ++ "." ++ (if n % 100 < 10 then "0" else "") ++
    toString (n % 100)

/-- `compute_price_for_condition` (lines 615-635): look up the
condition metadata, pick the override or default percentage, then try
to format `canonical_price * (1 - pct)`; the unbound name
`canonical_price` raises `NameError`, so the `except` branch returns
`canonical_price_raw`. -/
def compute_price_for_condition (seeds : List VariantSeed)
    (canonicalPriceRaw : String) (condKey : String) : String :=
  match CONDITION_META.find? (fun m => m.1 == condKey) with
  | none => canonicalPriceRaw
  | some meta =>
    let defaultPct := meta.2.2
    let overridePct : Option ℚ := (seedFor seeds condKey).bind (fun s => s.priceOverride)
    let pct := overridePct.getD defaultPct
    match canonicalPriceBinding with
    | none => canonicalPriceRaw
    | some cp => formatTwoDecimals (cp * (1 - pct))

/-- Modelled from the spec: the documented price of a damaged variant,
`canonical_price * (1 - effective_discount)` with the caller override
when present, else the fixed default 0.15/0.30/0.60
(`create_damaged_pair`'s docstring documents the same rule). -/
def specPriceForCondition (seeds : List VariantSeed)
    (canonicalPrice : ℚ) (condKey : String) : Option ℚ :=
  (CONDITION_META.find? (fun m => m.1 == condKey)).map (fun meta =>
    let pct := ((seedFor seeds condKey).bind (fun s => s.priceOverride)).getD meta.2.2
    canonicalPrice * (1 - pct))

example : specPriceForCondition [] 20 "light" = some 17 := by
  norm_num [specPriceForCondition, CONDITION_META, seedFor]

/-!
## `create_damaged_pair` payload construction (lines 524-701)

Collaborator results (the canonical-product lookup) are passed in as
values; the payload the function would POST to `products.json` is
produced as data.
-/

/-- The first variant of the canonical product, as far as
`create_damaged_pair` reads it. -/
structure CanonicalVariant where
  price : Option String := none
  sku : Option String := none
  deriving DecidableEq, Repr

/-- The canonical product object, as far as `create_damaged_pair`
reads it.  Shopify REST returns `tags` as one comma-separated
string. -/
structure CanonicalProduct where
  title : Option String := none
  vendor : Option String := none
  productType : Option String := none
  tags : Option String := none
  imageSrcs : List String := []
  variants : List CanonicalVariant := []
  deriving DecidableEq, Repr

/-- One variant payload built for the damaged product. -/
structure VariantPayload where
  title : String
  option1 : String
  sku : String
  barcode : String
  price : String
  inventoryManagement : String
  inventoryPolicy : String
  deriving DecidableEq, Repr

/-- The damaged-product payload (the fields `create_damaged_pair`
sets). -/
structure ProductPayload where
  title : String
  handle : String
  status : String
  vendor : Option String
  productType : Option String
  tags : List String
  canonicalHandleMetafield : String
  variants : List VariantPayload
  deriving DecidableEq, Repr

/-- `_snake_handle` (lines 49-55). -/
def snake_handle (handle : String) : String :=
  replaceChar (replaceChar (lowerStr (trimStr handle)) '-' '_') ' ' '_'

/-- `_make_barcode_for_condition` (lines 57-63). -/
def make_barcode_for_condition (canonicalHandle condKey : String) : String :=
  snake_handle canonicalHandle ++ "_" ++ condKey

/-- The damaged title derivation (lines 557-563): split the canonical
title at the first of `:;–—-`, trim, append ": Damaged". -/
def deriveDamagedTitle (canonicalTitle : String) : String :=
  let trimmed := trimStr canonicalTitle
  let base := trimStr ⟨trimmed.toList.takeWhile
    (fun c => !(c == ':' || c == ';' || c == '–' || c == '—' || c == '-'))⟩
  base ++ ": Damaged"

/-- Tag splitting (lines 579-586): split the comma-separated string,
trim, drop empties.  (Modelled for the string case the comment in the
source calls the normal one.) -/
def splitTags (raw : String) : List String :=
  ((raw.toList.splitOn ',').map (fun l => trimStr ⟨l⟩)).filter (fun t => t ≠ "")

/-- The payload `create_damaged_pair` builds (lines 637-688) once the
canonical product has been fetched.  `status` is the literal "draft"
(line 661); publishing is handled elsewhere. -/
def createDamagedPairPayload (canonicalHandle : String)
    (canonical : CanonicalProduct) (seeds : List VariantSeed) : ProductPayload :=
  let canonicalTitle := trimStr (pyOrStr canonical.title "")
  let canonicalVariant := canonical.variants.headD {}
  let canonicalPriceRaw := pyOrStr canonicalVariant.price "0.00"
  let canonicalSku := canonicalVariant.sku
  let canonicalTags := splitTags (pyOrStr canonical.tags "")
  let autoDamagedHandle := lowerStr (trimStr canonicalHandle) ++ "-damaged"
  let variantPayloads := ["light", "moderate", "heavy"].map (fun condKey =>
    let title := ((CONDITION_META.find? (fun m => m.1 == condKey)).map
      (fun m => m.2.1)).getD ""
    { title := title
      option1 := title
      sku := canonicalSku.getD ""
      barcode := make_barcode_for_condition canonicalHandle condKey
      price := compute_price_for_condition seeds canonicalPriceRaw condKey
      inventoryManagement := "shopify"
      inventoryPolicy := "deny" : VariantPayload })
  { title := deriveDamagedTitle canonicalTitle
    handle := autoDamagedHandle
    status := "draft"
    vendor := canonical.vendor
    productType := canonical.productType
    tags := (canonicalTags ++ ["damaged"]).dedup
    canonicalHandleMetafield := canonicalHandle
    variants := variantPayloads }

/-- `create_damaged_pair` raises when the canonical lookup finds
nothing (line 554); otherwise it creates the product from the
payload. -/
def create_damaged_pair (canonicalLookup : Option CanonicalProduct)
    (canonicalHandle : String) (seeds : List VariantSeed) :
    Except PyErr ProductPayload :=
  match canonicalLookup with
  | none => .error .runtimeError
  | some canonical => .ok (createDamagedPairPayload canonicalHandle canonical seeds)

example :
    (createDamagedPairPayload "pride-and-prejudice"
      { title := some "Pride and Prejudice", variants := [{ price := some "20.00" }] }
      []).variants.map (fun v => v.price) = ["20.00", "20.00", "20.00"] := by decide

/-!
## Duplicate check (`services/product_service.py` lines 135-247)

`check_damaged_duplicate(canonical_handle, damaged_handle)` needs two
catalog lookups and one ledger query; those collaborator results are
the fields of `DupEnv`.  Its `status` is "ok", "conflict", or — when
the body raises — "error"; it never returns the string "ok_to_create".
-/

/-- Collaborator results for one `check_damaged_duplicate` run. -/
structure DupEnv where
  canonicalFound : Bool
  damagedFound : Bool
  inventoryRowCount : Nat
  fatal : Bool := false
  deriving DecidableEq, Repr

/-- The result dict of `check_damaged_duplicate` (the fields the
callers read). -/
structure DupResult where
  status : String
  canonicalMissing : Bool
  damagedExists : Bool
  inventoryPresent : Bool
  safeToCreate : Bool
  deriving DecidableEq, Repr

/-- `product_service.check_damaged_duplicate` (lines 135-247). -/
def check_damaged_duplicate (env : DupEnv) : DupResult :=
  if env.fatal then
    { status := "error", canonicalMissing := false, damagedExists := false,
      inventoryPresent := false, safeToCreate := false }
  else
    let canonicalMissing := !env.canonicalFound
    let damagedExists := env.damagedFound
    let inventoryPresent := env.inventoryRowCount ≠ 0
    let hasConflict := canonicalMissing || damagedExists || inventoryPresent
    { status := if hasConflict then "conflict" else "ok"
      canonicalMissing := canonicalMissing
      damagedExists := damagedExists
      inventoryPresent := inventoryPresent
      safeToCreate := !hasConflict }

theorem check_damaged_duplicate_status_values (env : DupEnv) :
    (check_damaged_duplicate env).status = "ok" ∨
    (check_damaged_duplicate env).status = "conflict" ∨
    (check_damaged_duplicate env).status = "error" := by
  unfold check_damaged_duplicate
  rcases env with ⟨c, d, i, f⟩
  cases f
  · simp
    split <;> simp <;> tauto
  · simp

/-!
## `/admin/bulk-create` (`backend/app/admin_routes.py` lines 106-246)

Phase 1 runs
`check_damaged_duplicate(canonical_handle=entry.canonical_handle)` for
every entry.  The function's signature requires a second positional
argument `damaged_handle`, so this call raises
`TypeError: missing 1 required positional argument` before the check
body runs; the exception is not caught anywhere in the route.
`bulkCreateCheckCall` models that call site.
-/

/-- The phase-1 call as written at `admin_routes.py` line 133: the
required `damaged_handle` argument is missing, so calling raises
`TypeError` and no result is produced. -/
def bulkCreateCheckCall (_env : DupEnv) : Except PyErr DupResult :=
  .error .typeError

/-- Phase 1 of `bulk_create`: run the (mis-)call for every entry,
collecting the prechecks; the first raise aborts the request. -/
def bulkCreatePhase1 : List DupEnv → Except PyErr (List DupResult)
  | [] => .ok []
  | env :: rest => do
    let r ← bulkCreateCheckCall env
    let rs ← bulkCreatePhase1 rest
    pure (r :: rs)

/-- The HTTP response of `/admin/bulk-create` as the model observes
it: status code, how many entries reached phase-2 creation, and the
prechecks reported as conflicts. -/
structure BulkCreateResponse where
  statusCode : Nat
  createdCount : Nat
  conflicts : List DupResult
  deriving DecidableEq, Repr

/-- `admin_routes.bulk_create` (lines 106-246): phase 1 then either the
409 hard guard or phase-2 creation of every entry.  An uncaught raise
in phase 1 surfaces as the `Except` error (the framework then answers
500). -/
def bulk_create (entries : List DupEnv) : Except PyErr BulkCreateResponse := do
  let prechecked ← bulkCreatePhase1 entries
  let hasConflicts := prechecked.any (fun r => r.status != "ok_to_create")
  if hasConflicts then
    pure { statusCode := 409, createdCount := 0,
           conflicts := prechecked.filter (fun r => r.status != "ok_to_create") }
  else
    pure { statusCode := 200, createdCount := entries.length, conflicts := [] }

/-- `bulk_create` as it would behave had the call site passed the
required `damaged_handle` argument: phase 1 then the same guard.  Kept
separate so the status-string mismatch can be stated on its own. -/
def bulk_create_arg_fixed (entries : List DupEnv) : BulkCreateResponse :=
  let prechecked := entries.map check_damaged_duplicate
  let hasConflicts := prechecked.any (fun r => r.status != "ok_to_create")
  if hasConflicts then
    { statusCode := 409, createdCount := 0,
      conflicts := prechecked.filter (fun r => r.status != "ok_to_create") }
  else
    { statusCode := 200, createdCount := entries.length, conflicts := [] }

example : bulk_create [⟨true, false, 0, false⟩] = .error .typeError := rfl
example : (bulk_create_arg_fixed [⟨true, false, 0, false⟩]).statusCode = 409 := by decide

/-!
## Publish/redirect reconciler (`services/used_book_manager.py` lines 14-60)

`apply_product_rules_with_product` reads the ledger view
(`damaged_inventory_repo.list_view`), filters the rows to the damaged
handle, aggregates availability, and drives the publish flag and the
redirect.  The rows the view returned and the result of
`find_redirect_by_path(damaged_handle)` are passed in as values; the
gateway writes the function would issue are returned as data.
-/

/-- A row of `damaged.inventory_view` as the reconciler reads it. -/
structure ViewRow where
  handle : Option String := none
  available : Option Int := none
  deriving DecidableEq, Repr

/-- A redirect object (`find_redirect_by_path` result). -/
structure Redirect where
  id : Int
  deriving DecidableEq, Repr

/-- The gateway writes `apply_product_rules_with_product` issues. -/
structure ProductRulesActions where
  publish : Bool
  deletedRedirectId : Option Int
  createdRedirect : Option (String × String)
  deriving DecidableEq, Repr

/-- Python's `int(r.get("available") or 0)`. -/
def rowAvailable (r : ViewRow) : Int :=
  r.available.getD 0

/-- The row filter at `used_book_manager.py` line 25:
`(r.get("handle") or "").lower() == damaged_handle.lower()`. -/
def rowMatchesHandle (damagedHandle : String) (r : ViewRow) : Bool :=
  lowerStr (pyOrStr r.handle "") == lowerStr damagedHandle

/-- `used_book_manager.apply_product_rules_with_product` (lines
14-60). -/
def apply_product_rules_with_product (rows : List ViewRow)
    (existingRedirect : Option Redirect)
    (damagedHandle canonicalHandle : String) : ProductRulesActions :=
  let productRows := rows.filter (rowMatchesHandle damagedHandle)
  let anyInStock := productRows.any (fun r => rowAvailable r > 0)
  if anyInStock then
    { publish := true
      deletedRedirectId := existingRedirect.map (fun e => e.id)
      createdRedirect := none }
  else
    { publish := false
      deletedRedirectId := none
      createdRedirect :=
        match existingRedirect with
        | some _ => none
        | none => some (damagedHandle, canonicalHandle) }

example :
    apply_product_rules_with_product
      [{ handle := some "b-damaged", available := some 0 },
       { handle := some "b-damaged", available := some 0 },
       { handle := some "b-damaged", available := some 3 }]
      (some ⟨7⟩) "b-damaged" "b" =
    { publish := true, deletedRedirectId := some 7, createdRedirect := none } := by
  decide

example :
    apply_product_rules_with_product
      [{ handle := some "b-damaged", available := some 0 },
       { handle := some "b-damaged", available := some 0 },
       { handle := some "b-damaged", available := some 0 }]
      none "b-damaged" "b" =
    { publish := false, deletedRedirectId := none,
      createdRedirect := some ("b-damaged", "b") } := by
  decide

/-!
## Inventory change processor (`services/used_book_manager.py` lines 62-177)

`process_inventory_change` orchestrates the collaborators; their
results form `PICEnv`.  The ledger upsert it issues (lines 146-157) is
returned as data; its `available` argument is
`int(available_hint) if available_hint is not None else (1 if is_in_stock else 0)`.
-/

/-- The variant data the GraphQL resolver returns
(`resolve_by_inventory_item_id`), as far as the processor reads it. -/
structure ResolverVariant where
  condition : Option String := none
  sku : Option String := none
  barcode : Option String := none
  deriving DecidableEq, Repr

/-- The product dict fields the processor reads. -/
structure ProductInfo where
  handle : Option String := none
  title : Option String := none
  deriving DecidableEq, Repr

/-- Collaborator results for one `process_inventory_change` run. -/
structure PICEnv where
  product : Option ProductInfo := none
  fallbackInStock : Bool := false
  locationConfigured : Bool := true
  resolver : Except PyErr ResolverVariant := .ok {}
  existingRedirect : Option Redirect := none
  viewRows : List ViewRow := []
  deriving Repr

/-- The arguments of the ledger upsert (`damaged_inventory_repo.upsert`)
issued at lines 146-157. -/
structure UpsertCall where
  inventoryItemId : Int
  productId : Int
  variantId : Int
  handle : String
  condition : Option String := none
  conditionRaw : Option String := none
  conditionKey : Option String := none
  available : Int
  source : String
  sku : Option String := none
  barcode : Option String := none
  deriving DecidableEq, Repr

/-- The outcome record of `process_inventory_change`, extended with
the side effects the model tracks. -/
structure PICOutcome where
  skipped : Option String := none
  handle : Option String := none
  inStock : Bool := false
  action : Option String := none
  upsert : Option UpsertCall := none
  newBookHandle : Option String := none
  rules : Option ProductRulesActions := none
  deriving Repr

/-- Python's `str(x)` on an optional value: `str(None)` is the string
"None" (this is what lines 155-156 store when the resolver variant has
no sku/barcode). -/
def pyStrOpt (o : Option String) : String :=
  match o with
  | none => "None"
  | some s => s

/-- `used_book_manager.process_inventory_change` (lines 62-177). -/
def process_inventory_change (env : PICEnv)
    (inventoryItemId variantId productId : Int)
    (availableHint : Option Int) : PICOutcome :=
  match env.product with
  | none => { skipped := some "product_not_found" }
  | some p =>
    let handle := lowerStr (pyOrStr p.handle "")
    if !strEnds handle "-damaged" then
      { skipped := some "not_damaged", handle := some handle }
    else
      let isInStock :=
        match availableHint with
        | some h => h > 0
        | none => env.fallbackInStock
      let newBookHandle := get_new_book_handle_from_used handle
      let variantData : Option ResolverVariant :=
        if env.locationConfigured then
          match env.resolver with
          | .ok v => some v
          | .error _ => none
        else none
      let condition := variantData.bind (fun v => v.condition)
      let upsert : UpsertCall :=
        { inventoryItemId := inventoryItemId
          productId := productId
          variantId := variantId
          handle := pyOrStr p.handle ""
          condition := condition
          available :=
            match availableHint with
            | some h => h
            | none => if isInStock then 1 else 0
          source := "webhook"
          sku := variantData.map (fun v => pyStrOpt v.sku)
          barcode := variantData.map (fun v => pyStrOpt v.barcode) }
      let rules := apply_product_rules_with_product env.viewRows
        env.existingRedirect handle newBookHandle
      { skipped := none
        handle := some handle
        inStock := isInStock
        action := some (if isInStock then "published" else "unpublished")
        upsert := some upsert
        newBookHandle := some newBookHandle
        rules := some rules }

example :
    ((process_inventory_change { product := some { handle := some "b-damaged" } }
      1 2 3 (some 5)).upsert.map (fun u => u.available)) = some 5 := by
  decide
example :
    ((process_inventory_change { product := some { handle := some "b-damaged" } }
      1 2 3 none).upsert.map (fun u => u.available)) = some 0 := by
  decide

/-!
## Reconciliation sweep (`services/cron_service.py` lines 21-112)

`reconcile_damaged_inventory` short-circuits when
`SHOPIFY_LOCATION_ID` is missing, else walks the batch of ledger rows;
per row it calls the gateway resolver (whose per-row result, success
or raise, is supplied as data), upserts on success, and counts a raise
as `skipped` while continuing with the remaining rows.
-/

/-- A ledger row of the sweep batch, as read at lines 38-42. -/
structure SweepRow where
  inventoryItemId : Int
  productId : Int
  variantId : Int
  handle : String
  title : Option String := none
  deriving DecidableEq, Repr

/-- The resolver response the sweep reads (lines 44-62). -/
structure ResolvedInfo where
  available : Option Int := none
  sku : Option String := none
  barcode : Option String := none
  selectedOptions : List SelectedOption := []
  deriving DecidableEq, Repr

/-- The summary dict `reconcile_damaged_inventory` returns. -/
structure SweepSummary where
  inspected : Nat
  updated : Nat
  skipped : Nat
  note : Option String
  deriving DecidableEq, Repr

/-- The upsert issued for one successfully resolved sweep row
(lines 66-79): condition from the "Condition" selected option,
`available = int(resp.get("available", 0) or 0)`, `source="reconcile"`. -/
def sweepUpsert (r : SweepRow) (info : ResolvedInfo) : UpsertCall :=
  let cond := cronResolveCondition info.selectedOptions
  { inventoryItemId := r.inventoryItemId
    productId := r.productId
    variantId := r.variantId
    handle := r.handle
    condition := cond.1
    conditionRaw := cond.1
    conditionKey := cond.2
    available := info.available.getD 0
    source := "reconcile"
    sku := info.sku
    barcode := info.barcode }

/-- The per-row loop (lines 38-85): each element of the batch carries
its gateway result; a raise increments `skipped` and the loop
continues, a success upserts, records the touched pair and increments
`updated`. -/
def sweepRows :
    List (SweepRow × Except PyErr ResolvedInfo) →
    Nat × Nat × Nat × List UpsertCall × List (Int × String)
  | [] => (0, 0, 0, [], [])
  | (r, res) :: rest =>
    match res with
    | .error _ =>
      let (i, u, s, ups, t) := sweepRows rest
      (i + 1, u, s + 1, ups, t)
    | .ok info =>
      let (i, u, s, ups, t) := sweepRows rest
      (i + 1, u + 1, s, sweepUpsert r info :: ups, (r.productId, r.handle) :: t)

/-- `cron_service.reconcile_damaged_inventory` (lines 21-112): the
missing-configuration short-circuit, the per-row loop, and the
post-batch product-rule pass over touched pairs whose handle ends in
"-damaged" (with canonical `handle.removesuffix("-damaged")`). -/
def reconcile_damaged_inventory (locationConfigured : Bool)
    (batch : List (SweepRow × Except PyErr ResolvedInfo)) :
    SweepSummary × List UpsertCall × List (Int × String × String) :=
  if !locationConfigured then
    ({ inspected := 0, updated := 0, skipped := 0,
       note := some "missing SHOPIFY_LOCATION_ID" }, [], [])
  else
    let (i, u, s, ups, touched) := sweepRows batch
    let ruleTargets := (touched.dedup.filter (fun p => strEnds p.2 "-damaged")).map
      (fun p => (p.1, p.2, removeSuffix p.2 "-damaged"))
    ({ inspected := i, updated := u, skipped := s, note := none }, ups, ruleTargets)

example :
    (reconcile_damaged_inventory true
      [(⟨1, 10, 100, "b-damaged", none⟩, .ok { available := some 2 }),
       (⟨2, 10, 100, "b-damaged", none⟩, .error .httpError)]).1 =
    { inspected := 2, updated := 1, skipped := 1, note := none } := by decide

/-!
## Webhook boundary

Two handlers for `POST /webhooks/inventory-levels` exist in the
source.  `backend/app/main.py` registers the one from
`backend/app/routes.py`; the one in `api/webhooks.py` is not included
by any registered router.  Both are modelled; the HTTP status code is
the observable.  Python truthiness of the payload ids (`if not
all([...])`, 0 and missing are falsy) is kept.
-/

/-- Python truthiness of an optional integer field. -/
def truthyInt (o : Option Int) : Bool :=
  match o with
  | none => false
  | some n => n ≠ 0

/-- `backend/app/routes.py handle_inventory_webhook` (lines 40-80):
missing header 400, missing secret 500, bad signature 401, bad JSON
400, missing fields 400; then `process_inventory_change` — success
answers 200, a raise is re-raised as HTTP 500. -/
def handle_inventory_webhook (hmacHeader : Option String)
    (secretConfigured : Bool) (sigValid : Bool) (jsonParses : Bool)
    (inventoryItemId variantId productId : Option Int)
    (processResult : Except PyErr PICOutcome) : Nat :=
  match hmacHeader with
  | none => 400
  | some _ =>
    if !secretConfigured then 500
    else if !sigValid then 401
    else if !jsonParses then 400
    else if !(truthyInt inventoryItemId && truthyInt variantId &&
              truthyInt productId) then 400
    else
      match processResult with
      | .ok _ => 200
      | .error _ => 500

/-- `api/webhooks.py handle_inventory_level_update` (lines 13-57):
invalid signature 401, missing `inventory_item_id` 400; everything
else — including a raise from the variant lookup or from
`process_inventory_change` — is caught by the enclosing `try` and
answered with status 200 ("Avoid Shopify retries"). -/
def handle_inventory_level_update (sigValid : Bool)
    (inventoryItemId : Option Int)
    (variantLookup : Except PyErr (List PyVariant))
    (processResult : Except PyErr PICOutcome) : Nat :=
  if !sigValid then 401
  else if !truthyInt inventoryItemId then 400
  else
    match variantLookup with
    | .error _ => 200
    | .ok [] => 200
    | .ok (_ :: _) =>
      match processResult with
      | .ok _ => 200
      | .error _ => 200

example :
    handle_inventory_webhook (some "sig") true true true
      (some 1) (some 2) (some 3) (.error .runtimeError) = 500 := by decide
example :
    handle_inventory_level_update true (some 1) (.ok [{}])
      (.error .runtimeError) = 200 := by decide

/-!
## Claim theorems
-/

/-- C1: the claim says the bulk-create workflow prices each created
variant at `canonical_price * (1 - effective_discount)`.  In the code
the f-string at `product_service.py` line 633 references the unbound
name `canonical_price` (only `canonical_price_raw` exists), the
resulting `NameError` is swallowed by the `except`, and every variant
is priced at the undiscounted canonical price: `20.00` yields
`20.00/20.00/20.00`, never `17.00/14.00/8.00`.  The documented rule
(`specPriceForCondition`, matching the function's own docstring) would
give 17, 14, 8, and 10 under a 0.5 light override. -/
theorem c1_price_never_discounted :
    (∀ (seeds : List VariantSeed) (raw condKey : String),
      compute_price_for_condition seeds raw condKey = raw) ∧
    (createDamagedPairPayload "pride-and-prejudice"
        { title := some "Pride and Prejudice",
          variants := [{ price := some "20.00", sku := some "austen" }] }
        []).variants.map (fun v => v.price) = ["20.00", "20.00", "20.00"] ∧
    specPriceForCondition [] 20 "light" = some 17 ∧
    specPriceForCondition [] 20 "moderate" = some 14 ∧
    specPriceForCondition [] 20 "heavy" = some 8 ∧
    specPriceForCondition [⟨"light", none, some (1/2)⟩] 20 "light" = some 10 ∧
    ("20.00" : String) ≠ "17.00" := by
  refine ⟨?_, by decide, ?_, ?_, ?_, ?_, by decide⟩
  · intro seeds raw condKey
    unfold compute_price_for_condition
    cases CONDITION_META.find? (fun m => m.1 == condKey) <;>
      simp [canonicalPriceBinding]
  · rw [show specPriceForCondition [] 20 "light" =
      some (20 * (1 - 15/100 : ℚ)) from rfl]
    simp only [Option.some.injEq]
    norm_num
  · rw [show specPriceForCondition [] 20 "moderate" =
      some (20 * (1 - 30/100 : ℚ)) from rfl]
    simp only [Option.some.injEq]
    norm_num
  · rw [show specPriceForCondition [] 20 "heavy" =
      some (20 * (1 - 60/100 : ℚ)) from rfl]
    simp only [Option.some.injEq]
    norm_num
  · rw [show specPriceForCondition [⟨"light", none, some (1/2)⟩] 20 "light" =
      some (20 * (1 - 1/2 : ℚ)) from rfl]
    simp only [Option.some.injEq]
    norm_num

/-- C3: the claim says canonical-handle resolution as used by the
inventory change pipeline strips a trailing "-damaged".  The pipeline
(`used_book_manager.process_inventory_change` lines 91, 160) calls
`get_new_book_handle_from_used`, whose two legacy patterns do not
match a bare "-damaged" suffix, so "pride-and-prejudice-damaged" comes
back unchanged and the out-of-stock branch would create a redirect
from the damaged handle to itself; only
`seo_service.resolve_canonical_handle` (not called by the pipeline)
strips as claimed. -/
theorem c3_pipeline_does_not_strip_damaged :
    get_new_book_handle_from_used "pride-and-prejudice-damaged" =
      "pride-and-prejudice-damaged" ∧
    resolve_canonical_handle "pride-and-prejudice-damaged" none false =
      "pride-and-prejudice" ∧
    (process_inventory_change
        { product := some { handle := some "pride-and-prejudice-damaged" } }
        1 2 3 (some 0)).newBookHandle = some "pride-and-prejudice-damaged" ∧
    (process_inventory_change
        { product := some { handle := some "pride-and-prejudice-damaged" } }
        1 2 3 (some 0)).rules =
      some { publish := false, deletedRedirectId := none,
             createdRedirect :=
               some ("pride-and-prejudice-damaged", "pride-and-prejudice-damaged") } ∧
    "pride-and-prejudice-damaged" ≠ "pride-and-prejudice" := by
  refine ⟨by decide, by decide, ?_, ?_, by decide⟩ <;> decide

/-- C10: every damaged-product payload built by
`create_damaged_pair` has `status = "draft"` (line 661), for every
canonical product and every requested variant seed (quantities
included); creation itself never publishes. -/
theorem c10_created_as_draft :
    ∀ (canonicalHandle : String) (canonical : CanonicalProduct)
      (seeds : List VariantSeed),
      (createDamagedPairPayload canonicalHandle canonical seeds).status = "draft" ∧
      create_damaged_pair (some canonical) canonicalHandle seeds =
        .ok (createDamagedPairPayload canonicalHandle canonical seeds) :=
  fun _ _ _ => ⟨rfl, rfl⟩

/-- C2: the publish/redirect reconciler aggregates `available` over
the ledger rows whose handle equals the product's damaged handle: some
row with `available > 0` drives publish and deletes an existing
redirect; all rows at `available = 0` (no rows included) drives
unpublish and creates the damaged-to-canonical redirect exactly when
none exists. -/
theorem c2_reconciler_aggregate_rule (rows : List ViewRow)
    (existing : Option Redirect) (damagedHandle canonicalHandle : String) :
    ((∃ r ∈ rows, rowMatchesHandle damagedHandle r = true ∧ rowAvailable r > 0) →
      apply_product_rules_with_product rows existing damagedHandle canonicalHandle =
        { publish := true
          deletedRedirectId := existing.map (fun e => e.id)
          createdRedirect := none }) ∧
    ((∀ r ∈ rows, rowMatchesHandle damagedHandle r = true → rowAvailable r = 0) →
      apply_product_rules_with_product rows existing damagedHandle canonicalHandle =
        { publish := false
          deletedRedirectId := none
          createdRedirect :=
            if existing.isNone then some (damagedHandle, canonicalHandle)
            else none }) := by
  constructor
  · rintro ⟨r, hr, hm, ha⟩
    have hany : (rows.filter (rowMatchesHandle damagedHandle)).any
        (fun r => rowAvailable r > 0) = true := by
      rw [List.any_eq_true]
      exact ⟨r, List.mem_filter.mpr ⟨hr, hm⟩, by simpa using ha⟩
    unfold apply_product_rules_with_product
    simp [hany]
  · intro hall
    have hany : (rows.filter (rowMatchesHandle damagedHandle)).any
        (fun r => rowAvailable r > 0) = false := by
      rw [Bool.eq_false_iff]
      intro hcon
      rw [List.any_eq_true] at hcon
      obtain ⟨r, hr, hp⟩ := hcon
      obtain ⟨hmem, hmatch⟩ := List.mem_filter.mp hr
      have h0 := hall r hmem hmatch
      simp only [decide_eq_true_eq] at hp
      omega
    unfold apply_product_rules_with_product
    cases existing <;> simp [hany]

/-- C2 witness: the spec's own example, availabilities `[0, 0, 3]`
publish and delete the redirect, `[0, 0, 0]` unpublish and create
one. -/
theorem c2_reconciler_aggregate_rule_witness :
    apply_product_rules_with_product
      [{ handle := some "b-damaged", available := some 0 },
       { handle := some "b-damaged", available := some 0 },
       { handle := some "b-damaged", available := some 3 }]
      (some ⟨7⟩) "b-damaged" "b" =
      { publish := true, deletedRedirectId := some 7, createdRedirect := none } ∧
    apply_product_rules_with_product
      [{ handle := some "b-damaged", available := some 0 },
       { handle := some "b-damaged", available := some 0 },
       { handle := some "b-damaged", available := some 0 }]
      none "b-damaged" "b" =
      { publish := false, deletedRedirectId := none,
        createdRedirect := some ("b-damaged", "b") } := by
  constructor
  · exact (c2_reconciler_aggregate_rule
      [{ handle := some "b-damaged", available := some 0 },
       { handle := some "b-damaged", available := some 0 },
       { handle := some "b-damaged", available := some 3 }]
      (some ⟨7⟩) "b-damaged" "b").1 (by decide)
  · exact (c2_reconciler_aggregate_rule
      [{ handle := some "b-damaged", available := some 0 },
       { handle := some "b-damaged", available := some 0 },
       { handle := some "b-damaged", available := some 0 }]
      none "b-damaged" "b").2 (by decide)

/-- Helper: when no selected option has a condition-like name or a
value containing "damage", the first extraction pass finds nothing. -/
theorem scanSelectedOptions_eq_none (opts : List SelectedOption)
    (h : ∀ opt ∈ opts,
      (lowerStr (trimStr (pyOrStr opt.name "")) == "condition") = false ∧
      containsSub (lowerStr (trimStr (pyOrStr opt.name ""))) "damage" = false ∧
      containsSub (lowerStr (trimStr (pyOrStr opt.value ""))) "damage" = false) :
    scanSelectedOptions opts = none := by
  induction opts with
  | nil => rfl
  | cons opt rest ih =>
    obtain ⟨h1, h2, h3⟩ := h opt (List.mem_cons_self opt rest)
    unfold scanSelectedOptions
    simp only [h1, h2, h3, Bool.or_self, if_false, Bool.false_eq_true, ite_false]
    exact ih (fun o ho => h o (List.mem_cons_of_mem opt ho))

/-- Helper: when none of `option1`/`option2`/`option3` contains
"damage", the legacy fallback finds nothing. -/
theorem scanLegacyOptions_eq_none (opts : List (Option String))
    (h : ∀ o ∈ opts, o.all (fun s => !containsSub (lowerStr s) "damage") = true) :
    scanLegacyOptions opts = none := by
  induction opts with
  | nil => rfl
  | cons o rest ih =>
    have hrest := ih (fun x hx => h x (List.mem_cons_of_mem o hx))
    cases o with
    | none => simpa [scanLegacyOptions] using hrest
    | some s =>
      have hs := h (some s) (List.mem_cons_self _ rest)
      simp only [Option.all_some, Bool.not_eq_true'] at hs
      simpa [scanLegacyOptions, hs] using hrest

/-- C4 counterexample: the claim says a Condition option valued
"Light Damage" resolves to the pair `("Light Damage", "light")`, but
the sweep's normalization (`cron_service.py` line 60,
`condition_raw.lower().replace(" ", "_")`) produces the key
`"light_damage"`, not `"light"`. -/
theorem c4_counterexample :
    cronResolveCondition [⟨some "Condition", some "Light Damage"⟩] =
      (some "Light Damage", some "light_damage") ∧
    (some "light_damage" : Option String) ≠ some "light" := by
  decide

/-- C4 amended: a Condition option valued "Light Damage" resolves to
`("Light Damage", "light_damage")` (lower-cased, spaces to
underscores), "Moderate Damage" to key `"moderate_damage"`, "Heavy
Damage" to key `"heavy_damage"` — not the short keys; and when no
option name matches, no option value contains "damage", and the title
contains no "damage", `_extract_condition_from_variant` returns
null. -/
theorem c4_condition_resolution_amended :
    (∀ (v : String) (rest : List SelectedOption), v ≠ "" →
      cronResolveCondition (⟨some "Condition", some v⟩ :: rest) =
        (some v, some (replaceChar (lowerStr v) ' ' '_'))) ∧
    cronResolveCondition [⟨some "Condition", some "Light Damage"⟩] =
      (some "Light Damage", some "light_damage") ∧
    cronResolveCondition [⟨some "Condition", some "Moderate Damage"⟩] =
      (some "Moderate Damage", some "moderate_damage") ∧
    cronResolveCondition [⟨some "Condition", some "Heavy Damage"⟩] =
      (some "Heavy Damage", some "heavy_damage") ∧
    (∀ pv : PyVariant,
      (∀ opt ∈ pv.selectedOptions,
        (lowerStr (trimStr (pyOrStr opt.name "")) == "condition") = false ∧
        containsSub (lowerStr (trimStr (pyOrStr opt.name ""))) "damage" = false ∧
        containsSub (lowerStr (trimStr (pyOrStr opt.value ""))) "damage" = false) →
      (∀ o ∈ [pv.option1, pv.option2, pv.option3],
        o.all (fun s => !containsSub (lowerStr s) "damage") = true) →
      pv.title.all (fun t => !containsSub (lowerStr t) "damage") = true →
      extractConditionFromVariant pv = none) := by
  refine ⟨?_, by decide, by decide, by decide, ?_⟩
  · intro v rest hv
    rcases v with ⟨data⟩
    cases data with
    | nil => exact absurd rfl hv
    | cons c cs => rfl
  · intro pv h1 h2 h3
    unfold extractConditionFromVariant
    rw [scanSelectedOptions_eq_none pv.selectedOptions h1]
    rw [scanLegacyOptions_eq_none [pv.option1, pv.option2, pv.option3] h2]
    cases ht : pv.title with
    | none => rfl
    | some t =>
      rw [ht] at h3
      simp only [Option.all_some, Bool.not_eq_true'] at h3
      simp [h3]

/-- C4 witness: the amended normalization and the null case at
concrete variants. -/
theorem c4_condition_resolution_amended_witness :
    cronResolveCondition
      [⟨some "Condition", some "Light Damage"⟩, ⟨some "Size", some "L"⟩] =
      (some "Light Damage", some "light_damage") ∧
    extractConditionFromVariant
      { selectedOptions := [⟨some "Size", some "L"⟩],
        option1 := some "L", title := some "Paperback" } = none := by
  constructor
  · exact c4_condition_resolution_amended.1 "Light Damage"
      [⟨some "Size", some "L"⟩] (by decide)
  · exact c4_condition_resolution_amended.2.2.2.2
      { selectedOptions := [⟨some "Size", some "L"⟩],
        option1 := some "L", title := some "Paperback" }
      (by decide) (by decide) (by decide)

/-- C5: the claim says a clean multi-entry batch reaches phase-2
creation.  In the code the phase-1 call
(`admin_routes.py` line 133) omits the required `damaged_handle`
argument, so it raises `TypeError` — the batch ends with no creations
and no conflict set; and even with the argument supplied, phase 1
compares the precheck status against "ok_to_create" while
`check_damaged_duplicate` only ever returns "ok"/"conflict"/"error",
so every non-empty batch — a fully clean one included — aborts with
409 and zero creations, and phase 2 is unreachable. -/
theorem c5_bulk_create_phase2_unreachable :
    bulk_create [⟨true, false, 0, false⟩] = .error .typeError ∧
    (check_damaged_duplicate ⟨true, false, 0, false⟩).status = "ok" ∧
    (check_damaged_duplicate ⟨true, false, 0, false⟩).safeToCreate = true ∧
    (∀ env : DupEnv, (check_damaged_duplicate env).status ≠ "ok_to_create") ∧
    (∀ envs : List DupEnv, envs ≠ [] →
      (bulk_create_arg_fixed envs).statusCode = 409 ∧
      (bulk_create_arg_fixed envs).createdCount = 0) := by
  refine ⟨rfl, by decide, by decide, ?_, ?_⟩
  · intro env
    rcases check_damaged_duplicate_status_values env with h | h | h <;>
      simp [h]
  · intro envs hne
    cases envs with
    | nil => exact absurd rfl hne
    | cons e rest =>
      have hstat : ((check_damaged_duplicate e).status != "ok_to_create") = true := by
        rcases check_damaged_duplicate_status_values e with h | h | h <;>
          simp [h]
      have hany : ((e :: rest).map check_damaged_duplicate).any
          (fun r => r.status != "ok_to_create") = true := by
        simp only [List.map_cons, List.any_cons, hstat, Bool.true_or]
      unfold bulk_create_arg_fixed
      have hne' : ¬(check_damaged_duplicate e).status = "ok_to_create" := by
        simpa using hstat
      simp [hne']

/-- C5 witness: a one-entry batch whose duplicate check is clean still
aborts with 409 and zero creations under the argument-fixed model. -/
theorem c5_bulk_create_phase2_unreachable_witness :
    (bulk_create_arg_fixed [⟨true, false, 0, false⟩]).statusCode = 409 ∧
    (bulk_create_arg_fixed [⟨true, false, 0, false⟩]).createdCount = 0 :=
  c5_bulk_create_phase2_unreachable.2.2.2.2 [⟨true, false, 0, false⟩] (by decide)

/-- C7: a sweep batch in which only row 2 of 5 raises during gateway
resolution still upserts rows 1, 3, 4 and 5 (in order) and returns
`inspected=5, updated=4, skipped=1` — a per-row failure increments
`skipped` and never aborts the sweep. -/
theorem c7_sweep_row_isolation
    (r1 r2 r3 r4 r5 : SweepRow) (a1 a3 a4 a5 : ResolvedInfo) (err : PyErr) :
    (reconcile_damaged_inventory true
      [(r1, .ok a1), (r2, .error err), (r3, .ok a3),
       (r4, .ok a4), (r5, .ok a5)]).1 =
      { inspected := 5, updated := 4, skipped := 1, note := none } ∧
    (reconcile_damaged_inventory true
      [(r1, .ok a1), (r2, .error err), (r3, .ok a3),
       (r4, .ok a4), (r5, .ok a5)]).2.1 =
      [sweepUpsert r1 a1, sweepUpsert r3 a3, sweepUpsert r4 a4,
       sweepUpsert r5 a5] :=
  ⟨rfl, rfl⟩

/-- C6 counterexample: the claim says every ledger upsert writes
`available >= 0` for every integer `available_hint`; but
`process_inventory_change` passes a supplied hint straight through
(`used_book_manager.py` line 152), so a hint of `-1` is upserted as
`available = -1`. -/
theorem c6_counterexample :
    ((process_inventory_change { product := some { handle := some "b-damaged" } }
      1 2 3 (some (-1))).upsert.map (fun u => u.available)) = some (-1) ∧
    ¬ (0 : Int) ≤ -1 := by
  decide

/-- C6 amended: every ledger upsert writes a non-negative `available`
provided the incoming availability is non-negative — on the webhook
path, when the hint is absent or non-negative (the no-hint value is
the 0/1 in-stock flag); on the sweep path, when the gateway-reported
availability of each successfully resolved row is non-negative.  A
negative hint or gateway value is passed through unchanged. -/
theorem c6_upsert_nonnegative_amended :
    (∀ (env : PICEnv) (iid vid pid : Int) (hint : Option Int),
      (∀ h : Int, hint = some h → 0 ≤ h) →
      ∀ u : UpsertCall,
        (process_inventory_change env iid vid pid hint).upsert = some u →
        0 ≤ u.available) ∧
    (∀ batch : List (SweepRow × Except PyErr ResolvedInfo),
      (∀ p ∈ batch, ∀ info : ResolvedInfo,
        p.2 = .ok info → 0 ≤ info.available.getD 0) →
      ∀ u ∈ (reconcile_damaged_inventory true batch).2.1, 0 ≤ u.available) := by
  constructor
  · intro env iid vid pid hint hh u hu
    unfold process_inventory_change at hu
    cases hp : env.product with
    | none => rw [hp] at hu; exact absurd hu (by simp)
    | some p =>
      rw [hp] at hu
      by_cases hd : strEnds (lowerStr (pyOrStr p.handle "")) "-damaged"
      · simp only [hd, Bool.not_true, Bool.false_eq_true, if_false] at hu
        simp only [Option.some.injEq] at hu
        subst hu
        cases hint with
        | none => dsimp only; split <;> decide
        | some h => exact hh h rfl
      · simp only [Bool.not_eq_true] at hd
        simp [hd] at hu
  · intro batch hbatch u hu
    unfold reconcile_damaged_inventory at hu
    simp only [Bool.not_true, Bool.false_eq_true, if_false] at hu
    induction batch with
    | nil => exact absurd hu (by simp [sweepRows])
    | cons p rest ih =>
      obtain ⟨r, res⟩ := p
      cases res with
      | error e =>
        unfold sweepRows at hu
        exact ih (fun q hq info h => hbatch q (List.mem_cons_of_mem _ hq) info h) hu
      | ok info =>
        unfold sweepRows at hu
        simp only [List.mem_cons] at hu
        rcases hu with hu | hu
        · subst hu
          have := hbatch (r, .ok info) (List.mem_cons_self _ _) info rfl
          simpa [sweepUpsert] using this
        · exact ih (fun q hq info2 h => hbatch q (List.mem_cons_of_mem _ hq) info2 h) hu

/-- C6 witness for the amended claim: a non-negative hint of 4 is
stored as 4, and a two-row sweep with gateway availabilities 2 and 0
upserts only non-negative values. -/
theorem c6_upsert_nonnegative_amended_witness :
    (0 : Int) ≤ 4 ∧
    (∀ u : UpsertCall,
      (process_inventory_change { product := some { handle := some "b-damaged" } }
        1 2 3 (some 4)).upsert = some u → 0 ≤ u.available) ∧
    (∀ u ∈ (reconcile_damaged_inventory true
      [(⟨1, 10, 100, "b-damaged", none⟩, .ok { available := some 2 }),
       (⟨2, 10, 100, "b-damaged", none⟩, .ok { available := some 0 })]).2.1,
      0 ≤ u.available) := by
  refine ⟨by decide, ?_, ?_⟩
  · exact c6_upsert_nonnegative_amended.1
      { product := some { handle := some "b-damaged" } } 1 2 3 (some 4)
      (by intro h hh; cases hh; decide)
  · exact c6_upsert_nonnegative_amended.2
      [(⟨1, 10, 100, "b-damaged", none⟩, .ok { available := some 2 }),
       (⟨2, 10, 100, "b-damaged", none⟩, .ok { available := some 0 })]
      (by
        intro p hp info h
        simp only [List.mem_cons, List.not_mem_nil, or_false] at hp
        rcases hp with rfl | rfl <;>
          { injection h with h2; subst h2; decide })

/-- C8 counterexample: the claim says the webhook handler answers 2xx
even when `process_inventory_change` raises; but the handler that
`backend/app/main.py` registers (`routes.py handle_inventory_webhook`)
re-raises such a failure as HTTP 500 on a webhook whose signature
verifies and whose payload parses with all fields present. -/
theorem c8_counterexample :
    handle_inventory_webhook (some "sig") true true true
      (some 1) (some 2) (some 3) (.error .runtimeError) = 500 ∧
    ¬ (200 ≤ 500 ∧ 500 < 300) := by
  decide

/-- C8 amended: only the unregistered handler in `api/webhooks.py`
acknowledges unconditionally — it answers 200 whenever the signature
verifies and `inventory_item_id` is present, whatever the variant
lookup and `process_inventory_change` do (raises included); the
handler registered in the app (`backend/app/routes.py`) instead
answers 500 whenever `process_inventory_change` raises. -/
theorem c8_webhook_acknowledgment_amended :
    (∀ (iid : Option Int) (vl : Except PyErr (List PyVariant))
       (pr : Except PyErr PICOutcome),
      truthyInt iid = true →
      handle_inventory_level_update true iid vl pr = 200) ∧
    (∀ (hdr : String) (iid vid pid : Option Int) (e : PyErr),
      truthyInt iid = true → truthyInt vid = true → truthyInt pid = true →
      handle_inventory_webhook (some hdr) true true true iid vid pid
        (.error e) = 500) := by
  constructor
  · intro iid vl pr hiid
    unfold handle_inventory_level_update
    simp only [hiid, Bool.not_true, Bool.false_eq_true, if_false]
    cases vl with
    | error e => rfl
    | ok l =>
      cases l with
      | nil => rfl
      | cons v vs => cases pr <;> rfl
  · intro hdr iid vid pid e hiid hvid hpid
    unfold handle_inventory_webhook
    simp [hiid, hvid, hpid]

/-- C8 witness: both amended behaviors at a concrete webhook whose
processing raises. -/
theorem c8_webhook_acknowledgment_amended_witness :
    handle_inventory_level_update true (some 1) (.ok [{}])
      (.error .runtimeError) = 200 ∧
    handle_inventory_webhook (some "sig") true true true
      (some 1) (some 2) (some 3) (.error .runtimeError) = 500 :=
  ⟨c8_webhook_acknowledgment_amended.1 (some 1) (.ok [{}])
    (.error .runtimeError) (by decide),
   c8_webhook_acknowledgment_amended.2 "sig" (some 1) (some 2) (some 3)
    .runtimeError (by decide) (by decide) (by decide)⟩

/-- C9: when `process_inventory_change` runs without an
`available_hint` on a damaged-handle product, the upserted ledger row
records `available` as exactly 1 when the in-stock check is true and
exactly 0 otherwise (line 152) — the multi-unit quantity is not
recorded; a supplied hint is passed through as the stored value. -/
theorem c9_webhook_available_is_flag (env : PICEnv)
    (iid vid pid : Int) (p : ProductInfo)
    (hp : env.product = some p)
    (hd : strEnds (lowerStr (pyOrStr p.handle "")) "-damaged" = true) :
    ((process_inventory_change env iid vid pid none).upsert.map
      (fun u => u.available)) =
      some (if env.fallbackInStock then 1 else 0) ∧
    (∀ h : Int,
      ((process_inventory_change env iid vid pid (some h)).upsert.map
        (fun u => u.available)) = some h) := by
  constructor
  · unfold process_inventory_change
    rw [hp]
    simp [hd]
  · intro h
    unfold process_inventory_change
    rw [hp]
    simp [hd]

/-- C9 witness: a damaged product with a true in-stock check stores 1;
the same with a hint of 7 stores 7. -/
theorem c9_webhook_available_is_flag_witness :
    ((process_inventory_change
      { product := some { handle := some "b-damaged" }, fallbackInStock := true }
      1 2 3 none).upsert.map (fun u => u.available)) = some 1 ∧
    ((process_inventory_change
      { product := some { handle := some "b-damaged" }, fallbackInStock := true }
      1 2 3 (some 7)).upsert.map (fun u => u.available)) = some 7 :=
  ⟨(c9_webhook_available_is_flag
      { product := some { handle := some "b-damaged" }, fallbackInStock := true }
      1 2 3 { handle := some "b-damaged" } rfl (by decide)).1,
   (c9_webhook_available_is_flag
      { product := some { handle := some "b-damaged" }, fallbackInStock := true }
      1 2 3 { handle := some "b-damaged" } rfl (by decide)).2 7⟩
